import Mathlib

/-!
Shallow embedding of the booking subsystem of the car-rental backend
(`bookings/models.py`, `bookings/serializers.py`).

Conventions of the embedding:
* `DateField` values are modelled as `Int` day ordinals; `(d2 - d1).days`
  becomes plain integer subtraction, and `timezone.now().date()` is passed
  in explicitly as a `today : Int` parameter.
* `DecimalField(max_digits=10, decimal_places=2)` values are exact
  decimals; the code only ever adds, subtracts and compares them, and
  multiplies them by integer day counts, so we model them exactly as `Int`
  values (amounts in hundredths).
* Nullable columns and optional dictionary entries become `Option`.
* The database table of bookings is passed explicitly as a
  `List Booking`; query-set filters become list filters.
* Methods that can raise `ValidationError` return `Except String`.
-/

namespace CarRental

/-- A row of the `cars.Car` model, restricted to the fields the booking
subsystem reads or writes (`id`, `fee`, `availability`, `status`). -/
structure Car where
  id : Nat
  fee : Int
  availability : String
  status : String
deriving Repr, DecidableEq

/-- A row of the `bookings.Booking` model, restricted to the fields the
claims are about.  `id` is the database primary key (`None` before the
first save).  The `car` / `original_car` foreign keys carry the referenced
`Car` value. -/
structure Booking where
  id : Option Nat
  booking_id : String
  car : Option Car
  start_date : Int
  end_date : Int
  booking_status : String
  car_returned : Bool
  payment_status : String
  subtotal : Int
  tax : Int
  discount : Int
  extension_charges : Int
  total_amount : Int
  paid_amount : Int
  payment_date : Option Int
  accident_charges : Int
  original_car : Option Car
  has_been_swapped : Bool
  swap_date : Option Int
  swap_reason : Option String
deriving Repr, DecidableEq

/-- The ORM filter `car=car` compares the booking's foreign key with the
given car's primary key. -/
def car_matches (b : Booking) (car : Car) : Bool :=
  match b.car with
  | some c => c.id == car.id
  | none => false

/-- Python truthiness of the `exclude_booking_id` argument
(`if exclude_booking_id:`): `None` and `0` are falsy. -/
def truthy_opt_id : Option Nat → Bool
  | none => false
  | some i => i != 0

/-- `Booking.check_car_availability` (models.py lines 114-140): the car is
available iff no booking for the same car with `start_date < end_date` and
`end_date > start_date` remains after excluding the `Cancelled`/`Returned`
ones and, when `exclude_booking_id` is truthy, the booking with that id. -/
def check_car_availability (bookings : List Booking) (car : Car)
    (start_date end_date : Int) (exclude_booking_id : Option Nat) : Bool :=
  let overlapping_bookings := (bookings.filter (fun b =>
      car_matches b car && b.start_date < end_date && b.end_date > start_date)).filter
      (fun b => !(b.booking_status == "Cancelled" || b.booking_status == "Returned"))
  let overlapping_bookings :=
    if truthy_opt_id exclude_booking_id then
      overlapping_bookings.filter (fun b => b.id != exclude_booking_id)
    else overlapping_bookings
  overlapping_bookings.isEmpty

/-- `Booking.clean` (models.py lines 142-162).  `start_date` and `end_date`
are non-nullable columns, hence always truthy, so the guard reduces to the
comparison; the availability check runs only when a car is assigned and
excludes the booking's own id. -/
def clean (bookings : List Booking) (b : Booking) : Except String Unit :=
  if b.start_date > b.end_date then
    .error "Start date must be before end date"
  else
    match b.car with
    | some c =>
      if check_car_availability bookings c b.start_date b.end_date b.id then
        .ok ()
      else
        .error "This car is already booked for the selected dates"
    | none => .ok ()

/-- Zero-padded decimal rendering, as `strftime` does for `%Y`/`%m`/`%d`. -/
def pad_zeros (width n : Nat) : String :=
  let s := toString n
  String.mk (List.replicate (width - s.length) '0') ++ s

/-- `timezone.now().strftime('%Y%m%d')` for a date given as year, month,
day numbers. -/
def strftime_Ymd (y m d : Nat) : String :=
  pad_zeros 4 y ++ pad_zeros 2 m ++ pad_zeros 2 d

/-- The characters before the first `'-'` (all of them when there is
none). -/
def chars_before_dash : List Char → List Char
  | [] => []
  | c :: cs => if c = '-' then [] else c :: chars_before_dash cs

/-- `str(uuid.uuid4()).split('-')[0]`: the first dash-separated group of
the UUID's string form. -/
def uuid_first_group (u : String) : String :=
  String.mk (chars_before_dash u.toList)

/-- The booking id generated on first save:
`f"BK-{timezone.now().strftime('%Y%m%d')}-{unique_id}"`. -/
def generate_booking_id (y m d : Nat) (u : String) : String :=
  "BK-" ++ strftime_Ymd y m d ++ "-" ++ uuid_first_group u

/-- `Booking.save` (models.py lines 164-177): assign a fresh booking id
when `booking_id` is falsy (the empty string), run `clean`, and persist.
`y m d` is today's date and `u` the fresh UUID string drawn during this
save; the result is the row as stored, or the `ValidationError`. -/
def save (bookings : List Booking) (b : Booking) (y m d : Nat) (u : String) :
    Except String Booking :=
  let b := if b.booking_id == "" then
      { b with booking_id := generate_booking_id y m d u }
    else b
  (clean bookings b).map (fun _ => b)

/-- `Booking.get_duration_days` (models.py lines 239-246):
`(end_date - start_date).days`. -/
def get_duration_days (b : Booking) : Int :=
  b.end_date - b.start_date

/-- `Booking.get_total_balance` (models.py lines 248-267).  The overdue fee
is charged only when the car is not returned, today is past the end date,
and a car with a truthy (nonzero) fee is assigned. -/
def get_total_balance (b : Booking) (today : Int) : Int :=
  let overdue_fee : Int :=
    if !b.car_returned then
      if today > b.end_date then
        match b.car with
        | some c =>
          if c.fee != 0 then c.fee * (today - b.end_date) else 0
        | none => 0
      else 0
    else 0
  (b.total_amount + overdue_fee + b.accident_charges) - b.paid_amount

/-- A row of the `bookings.BookingExtension` model (models.py lines
420-443), restricted to the fields `Booking.extend` writes. -/
structure BookingExtension where
  booking : Option Nat
  previous_end_date : Int
  new_end_date : Int
  extension_fee : Int
  reason : Option String
  remarks : Option String
deriving Repr, DecidableEq

/-- `Booking.extend` (models.py lines 180-208).  Returns the outcome of the
booking's save together with the list of `BookingExtension` rows created
during the call: the row is created *before* the booking is saved, so it
persists even when the final save raises. -/
def extend (bookings : List Booking) (b : Booking) (new_end_date : Int)
    (extension_fee : Int) (reason remarks : Option String)
    (y m d : Nat) (u : String) :
    Except String Booking × List BookingExtension :=
  if new_end_date ≤ b.end_date then
    (.error "New end date must be after current end date.", [])
  else
    let ext : BookingExtension :=
      { booking := b.id
        previous_end_date := b.end_date
        new_end_date := new_end_date
        extension_fee := extension_fee
        reason := reason
        remarks := remarks }
    let b := { b with
      extension_charges := b.extension_charges + extension_fee
      end_date := new_end_date
      total_amount := b.total_amount + extension_fee }
    (save bookings b y m d u, [ext])

/-- `Booking.swap_car` (models.py lines 210-237).  `today` is
`timezone.now().date()` as an ordinal, `y m d`/`u` feed the inner `save`.
On success returns the saved booking, the car set to
`Available`/`Active` (the `old_car` local of the source: the original car
when the booking was already swapped, the current car otherwise) and the
replacement car set to `Booked`/`Booked`.  When `old_car` is `None` the
source raises `AttributeError` after the save; we surface it as an error. -/
def swap_car (bookings : List Booking) (b : Booking) (new_car : Car)
    (reason : String) (today : Int) (y m d : Nat) (u : String) :
    Except String (Booking × Car × Car) :=
  let old_car := if b.has_been_swapped then b.original_car else b.car
  let b := if b.has_been_swapped then b else { b with original_car := b.car }
  let b := { b with
    car := some new_car
    has_been_swapped := true
    swap_date := some today
    swap_reason := some reason }
  match save bookings b y m d u with
  | .error e => .error e
  | .ok b2 =>
    match old_car with
    | none => .error "AttributeError"
    | some oc =>
      .ok (b2, { oc with availability := "Available", status := "Active" },
               { new_car with availability := "Booked", status := "Booked" })

/-- A row of the `bookings.Payment` model, restricted to the fields
`Payment.save` reads. -/
structure Payment where
  booking : Option Nat
  amount : Int
  payment_date : Int
  is_successful : Bool
deriving Repr, DecidableEq

/-- `Booking.get_total_paid` / the aggregate in `Payment.save`:
`payments.filter(is_successful=True).aggregate(Sum('amount'))`, with `or 0`
covering the empty case. -/
def get_total_paid (payments : List Payment) : Int :=
  ((payments.filter (fun p => p.is_successful)).map (fun p => p.amount)).sum

/-- `Payment.save` (models.py lines 370-402).  `payments` is the list of
this booking's payment rows already in the database; `super().save()`
first persists `p`, then the booking's `paid_amount`, `payment_status` and
`payment_date` are recomputed and the booking saved (its `save` runs
`clean`, so the call can still fail). -/
def payment_save (bookings : List Booking) (b : Booking)
    (payments : List Payment) (p : Payment) (today : Int)
    (y m d : Nat) (u : String) : Except String Booking :=
  let payments := payments ++ [p]
  let total_paid := get_total_paid payments
  let b := { b with paid_amount := total_paid }
  let total_due := get_total_balance b today + total_paid
  let b :=
    if total_paid = 0 then { b with payment_status := "Unpaid" }
    else if total_paid < total_due then { b with payment_status := "Partial" }
    else { b with payment_status := "Paid" }
  let b := if b.payment_date.isNone && p.is_successful then
      { b with payment_date := some p.payment_date }
    else b
  save bookings b y m d u

/-! ## Serializer layer (`bookings/serializers.py`) -/

/-- `BookingSerializer.calculate_subtotal` (serializers.py lines 117-130):
`car.fee * (end_date - start_date).days` when car, start and end are all
truthy, `0` otherwise. -/
def calculate_subtotal (car : Option Car) (start_date end_date : Option Int) : Int :=
  match car, start_date, end_date with
  | some c, some s, some e => c.fee * (e - s)
  | _, _, _ => 0

/-- `BookingSerializer.calculate_overdue_fee` (serializers.py lines
100-115): `car.fee * (today - end_date).days` when the end date is set and
past, the car is not returned, and a car with a truthy fee is given. -/
def calculate_overdue_fee (car : Option Car) (end_date : Option Int)
    (car_returned : Bool) (today : Int) : Int :=
  match end_date with
  | some e =>
    if today > e ∧ car_returned = false then
      match car with
      | some c => if c.fee ≠ 0 then c.fee * (today - e) else 0
      | none => 0
    else 0
  | none => 0

/-- The `validated_data` dictionary as `BookingSerializer.create` reads it:
`none` is an absent key.  (`data.get('car')` collapses an explicit null and
an absent key, so `car` is one level of `Option`.) -/
structure CreateData where
  car : Option Car
  start_date : Option Int
  end_date : Option Int
  car_returned : Option Bool
  tax : Option Int
  discount : Option Int
  paid_amount : Option Int
deriving Repr

/-- The fields `BookingSerializer.create`/`update` write into
`validated_data` before delegating to the ORM. -/
structure ComputedFields where
  subtotal : Int
  total_amount : Int
  payment_status : String
deriving Repr, DecidableEq

/-- `BookingSerializer.create` (serializers.py lines 166-200): computes
`subtotal`, `total_amount = subtotal + tax - discount` and the initial
`payment_status` from `paid_amount` against `total_amount + overdue_fee`. -/
def create (data : CreateData) (today : Int) : ComputedFields :=
  let car := data.car
  let start_date := data.start_date
  let end_date := data.end_date
  let car_returned := data.car_returned.getD false
  let tax := data.tax.getD 0
  let discount := data.discount.getD 0
  let paid_amount := data.paid_amount.getD 0
  let subtotal := calculate_subtotal car start_date end_date
  let total_amount := subtotal + tax - discount
  let overdue_fee := calculate_overdue_fee car end_date car_returned today
  let total_due := total_amount + overdue_fee
  let payment_status :=
    if paid_amount = 0 then "Unpaid"
    else if paid_amount < total_due then "Partial"
    else "Paid"
  { subtotal := subtotal, total_amount := total_amount, payment_status := payment_status }

/-- The `validated_data` dictionary as `BookingSerializer.update` and
`validate` read it: the outer `Option` is key presence; for the nullable
`car` key a present value is itself an `Option Car`. -/
structure UpdateData where
  car : Option (Option Car)
  start_date : Option Int
  end_date : Option Int
  car_returned : Option Bool
  tax : Option Int
  discount : Option Int
  paid_amount : Option Int
deriving Repr

/-- `BookingSerializer.update` (serializers.py lines 202-237): like
`create` but every missing key falls back to the current `instance` value
(`validated_data.get(key, getattr(instance, key))`). -/
def update (inst : Booking) (data : UpdateData) (today : Int) : ComputedFields :=
  let car := data.car.getD inst.car
  let start_date := some (data.start_date.getD inst.start_date)
  let end_date := some (data.end_date.getD inst.end_date)
  let car_returned := data.car_returned.getD inst.car_returned
  let tax := data.tax.getD inst.tax
  let discount := data.discount.getD inst.discount
  let paid_amount := data.paid_amount.getD inst.paid_amount
  let subtotal := calculate_subtotal car start_date end_date
  let total_amount := subtotal + tax - discount
  let overdue_fee := calculate_overdue_fee car end_date car_returned today
  let total_due := total_amount + overdue_fee
  let payment_status :=
    if paid_amount = 0 then "Unpaid"
    else if paid_amount < total_due then "Partial"
    else "Paid"
  { subtotal := subtotal, total_amount := total_amount, payment_status := payment_status }

/-- `BookingSerializer.validate` (serializers.py lines 132-164).
`instance` is `self.instance` (`none` on create).  The date checks fire
only when both date keys are present in the incoming data; the
double-booking query filters the same overlap condition as
`check_car_availability` but does *not* exclude `Cancelled`/`Returned`
bookings, and excludes `id=booking_id` unconditionally (`booking_id` being
`self.instance.id if self.instance else None`). -/
def validate (bookings : List Booking) (data : UpdateData)
    (self_instance : Option Booking) (today : Int) : Except String Unit :=
  let date_check : Except String Unit :=
    match data.start_date, data.end_date with
    | some s, some e =>
      if s > e then .error "End date must be after start date"
      else if s < today then .error "Start date cannot be in the past"
      else .ok ()
    | _, _ => .ok ()
  match date_check with
  | .error e => .error e
  | .ok _ =>
    let car := (data.car.getD none).orElse (fun _ => self_instance.bind (fun i => i.car))
    let start_date := data.start_date.orElse (fun _ => self_instance.map (fun i => i.start_date))
    let end_date := data.end_date.orElse (fun _ => self_instance.map (fun i => i.end_date))
    let booking_id := self_instance.bind (fun i => i.id)
    match car, start_date, end_date with
    | some c, some s, some e =>
      let overlapping := (bookings.filter (fun b =>
          car_matches b c && b.start_date < e && b.end_date > s)).filter
        (fun b => b.id != booking_id)
      if overlapping.isEmpty then .ok ()
      else .error "Car is already booked for the selected dates."
    | _, _, _ => .ok ()

/-! ## Sample data used by witnesses and counterexamples -/

/-- A representative stored booking with no car assigned. -/
def sample_booking : Booking :=
  { id := some 1
    booking_id := "BK-20250101-aaaaaaaa"
    car := none
    start_date := 0
    end_date := 5
    booking_status := "Active"
    car_returned := false
    payment_status := "Unpaid"
    subtotal := 0
    tax := 0
    discount := 0
    extension_charges := 0
    total_amount := 100
    paid_amount := 0
    payment_date := none
    accident_charges := 0
    original_car := none
    has_been_swapped := false
    swap_date := none
    swap_reason := none }

/-- A representative car. -/
def sample_car : Car :=
  { id := 10, fee := 50, availability := "Booked", status := "Booked" }

/-! ## Helper lemmas -/

/-- A successful `save` stores the input booking, with the generated
booking id substituted when the field was empty. -/
theorem save_ok_eq {bookings : List Booking} {b : Booking} {y m d : Nat}
    {u : String} {b' : Booking} (h : save bookings b y m d u = .ok b') :
    b' = if b.booking_id == "" then
        { b with booking_id := generate_booking_id y m d u }
      else b := by
  simp only [save] at h
  cases hc : clean bookings (if b.booking_id == "" then
      { b with booking_id := generate_booking_id y m d u } else b) with
  | error e => rw [hc] at h; exact absurd h (by simp [Except.map])
  | ok v => rw [hc] at h; simpa [Except.map] using h.symm

/-- A successful `save` ran `clean` successfully on the stored row. -/
theorem save_ok_clean {bookings : List Booking} {b : Booking} {y m d : Nat}
    {u : String} {b' : Booking} (h : save bookings b y m d u = .ok b') :
    clean bookings (if b.booking_id == "" then
        { b with booking_id := generate_booking_id y m d u }
      else b) = .ok () := by
  simp only [save] at h
  cases hc : clean bookings (if b.booking_id == "" then
      { b with booking_id := generate_booking_id y m d u } else b) with
  | error e => rw [hc] at h; exact absurd h (by simp [Except.map])
  | ok v => cases v; rfl

/-- `clean` succeeds only when the dates are ordered. -/
theorem clean_ok_dates {bookings : List Booking} {b : Booking}
    (h : clean bookings b = .ok ()) : b.start_date ≤ b.end_date := by
  unfold clean at h
  split at h
  · exact absurd h (by simp)
  · next hgt => exact le_of_not_lt hgt

/-! ## Claims -/

/-- C8: every booking stored by a successful `save` satisfies
`start_date ≤ end_date`, because the save hook runs `clean`, which raises
whenever the start date is strictly after the end date; `save` also never
alters the dates, so no operation stores a reversed range. -/
theorem saved_booking_dates_ordered (bookings : List Booking) (b : Booking)
    (y m d : Nat) (u : String) (b' : Booking)
    (h : save bookings b y m d u = .ok b') :
    b'.start_date ≤ b'.end_date ∧
    b'.start_date = b.start_date ∧ b'.end_date = b.end_date := by
  have hb := save_ok_eq h
  have hd := clean_ok_dates (save_ok_clean h)
  refine ⟨by rw [hb]; exact hd, ?_, ?_⟩ <;> rw [hb] <;> split <;> rfl

/-- Witness for C8 at a concrete saved booking. -/
theorem saved_booking_dates_ordered_witness :
    sample_booking.start_date ≤ sample_booking.end_date :=
  (saved_booking_dates_ordered [] sample_booking 2025 1 1 "abcd1234-ef"
    sample_booking rfl).1

/-- C9: a successful `save` assigns
`booking_id = "BK-" ++ YYYYMMDD ++ "-" ++ (first UUID group)` exactly when
the field was empty — when the UUID string is in canonical form its first
group has 8 characters — and leaves a nonempty `booking_id` untouched, so
once set no subsequent save changes it. -/
theorem save_booking_id_assignment (bookings : List Booking) (b : Booking)
    (y m d : Nat) (u : String) (b' : Booking)
    (h : save bookings b y m d u = .ok b') :
    (b.booking_id = "" →
      b'.booking_id = "BK-" ++ strftime_Ymd y m d ++ "-" ++ uuid_first_group u) ∧
    (b.booking_id ≠ "" → b'.booking_id = b.booking_id) ∧
    ((uuid_first_group u).length = 8 → b.booking_id = "" →
      ∃ frag, b'.booking_id = "BK-" ++ strftime_Ymd y m d ++ "-" ++ frag ∧
        frag.length = 8) := by
  have hb := save_ok_eq h
  refine ⟨fun he => ?_, fun hne => ?_, fun hlen he => ?_⟩
  · rw [hb]; simp [he, generate_booking_id]
  · rw [hb]; simp [beq_iff_eq, hne]
  · exact ⟨uuid_first_group u, by rw [hb]; simp [he, generate_booking_id], hlen⟩

/-- Witness for C9: a fresh booking gets the generated id from today's
date and a canonical UUID; the first group of that UUID has 8 characters. -/
theorem save_booking_id_assignment_witness :
    (uuid_first_group "123e4567-e89b-12d3-a456-426614174000").length = 8 ∧
    { sample_booking with
        booking_id := "BK-20250107-123e4567" }.booking_id =
      "BK-" ++ strftime_Ymd 2025 1 7 ++ "-" ++
        uuid_first_group "123e4567-e89b-12d3-a456-426614174000" :=
  ⟨by decide,
    (save_booking_id_assignment [] { sample_booking with booking_id := "" }
      2025 1 7 "123e4567-e89b-12d3-a456-426614174000"
      { sample_booking with booking_id := "BK-20250107-123e4567" }
      (by rfl)).1 rfl⟩

/-- C10: a booking whose start date equals its end date is accepted by the
model validation (whose date check rejects only start strictly after end;
the availability check is assumed to pass, as it does e.g. with no car),
`get_duration_days` returns 0, the serializer subtotal is 0, and the
serializer-computed total amount reduces to tax minus discount. -/
theorem equal_dates_accepted (bookings : List Booking) (b : Booking)
    (heq : b.start_date = b.end_date)
    (havail : ∀ c, b.car = some c →
      check_car_availability bookings c b.start_date b.end_date b.id = true) :
    clean bookings b = .ok () ∧
    get_duration_days b = 0 ∧
    calculate_subtotal b.car (some b.start_date) (some b.end_date) = 0 ∧
    (∀ (dt : CreateData) (today : Int),
      dt.start_date = some b.start_date → dt.end_date = some b.end_date →
      (create dt today).subtotal = 0 ∧
      (create dt today).total_amount = dt.tax.getD 0 - dt.discount.getD 0) := by
  have hsub : ∀ car : Option Car,
      calculate_subtotal car (some b.start_date) (some b.end_date) = 0 := by
    intro car
    cases car with
    | none => rfl
    | some c => simp [calculate_subtotal, heq]
  refine ⟨?_, ?_, hsub b.car, ?_⟩
  · unfold clean
    rw [if_neg (by omega)]
    cases hcar : b.car with
    | none => rfl
    | some c => simp [havail c hcar]
  · simp [get_duration_days, heq]
  · intro dt today hs he
    refine ⟨?_, ?_⟩
    · simp only [create]; rw [hs, he]; exact hsub dt.car
    · simp only [create]; rw [hs, he, hsub dt.car]; ring

/-- Witness for C10 at a booking running from day 0 to day 0. -/
theorem equal_dates_accepted_witness :
    clean [] { sample_booking with end_date := 0 } = .ok () ∧
    get_duration_days { sample_booking with end_date := 0 } = 0 :=
  ⟨(equal_dates_accepted [] { sample_booking with end_date := 0 } rfl
      (by intro c h; simp [sample_booking] at h)).1,
   (equal_dates_accepted [] { sample_booking with end_date := 0 } rfl
      (by intro c h; simp [sample_booking] at h)).2.1⟩

/-- C1: for bookings created or updated through the booking serializer,
the stored subtotal is the car's daily fee times the whole number of days
from start to end date (0 when car, start date or end date is absent),
and the stored total amount is that subtotal plus the given tax minus the
given discount (in `update`, missing keys fall back to the instance's
values). -/
theorem serializer_subtotal_total (dt : CreateData) (inst : Booking)
    (ud : UpdateData) (today : Int) :
    ((create dt today).total_amount =
      (create dt today).subtotal + dt.tax.getD 0 - dt.discount.getD 0) ∧
    (∀ c s e, dt.car = some c → dt.start_date = some s → dt.end_date = some e →
      (create dt today).subtotal = c.fee * (e - s)) ∧
    ((dt.car = none ∨ dt.start_date = none ∨ dt.end_date = none) →
      (create dt today).subtotal = 0) ∧
    ((update inst ud today).total_amount =
      (update inst ud today).subtotal
        + ud.tax.getD inst.tax - ud.discount.getD inst.discount) ∧
    (∀ c, ud.car.getD inst.car = some c →
      (update inst ud today).subtotal =
        c.fee * ((ud.end_date.getD inst.end_date
                  - ud.start_date.getD inst.start_date : Int) : Int)) ∧
    (ud.car.getD inst.car = none → (update inst ud today).subtotal = 0) := by
  refine ⟨by simp [create], ?_, ?_, by simp [update], ?_, ?_⟩
  · intro c s e hc hs he
    simp [create, hc, hs, he, calculate_subtotal]
  · rintro (h | h | h) <;>
      cases hc : dt.car <;> cases hs : dt.start_date <;> cases he : dt.end_date <;>
      simp_all [create, calculate_subtotal]
  · intro c hc
    simp [update, hc, calculate_subtotal]
  · intro hc
    simp [update, hc, calculate_subtotal]

/-- Witness for C1: a 3-day booking of `sample_car` at fee 50 with tax 7
and discount 2. -/
theorem serializer_subtotal_total_witness :
    (create { car := some sample_car, start_date := some 0, end_date := some 3,
              car_returned := none, tax := some 7, discount := some 2,
              paid_amount := none } 0).subtotal
      = sample_car.fee * ((3 - 0 : Int) : Int) :=
  (serializer_subtotal_total
    { car := some sample_car, start_date := some 0, end_date := some 3,
      car_returned := none, tax := some 7, discount := some 2,
      paid_amount := none }
    sample_booking
    { car := none, start_date := none, end_date := none, car_returned := none,
      tax := none, discount := none, paid_amount := none }
    0).2.1 sample_car 0 3 rfl rfl rfl

/-- C3: `get_total_balance` returns total amount plus overdue fee plus
accident charges minus paid amount, where the overdue fee (the same value
the serializer's `calculate_overdue_fee` computes) is the car's daily fee
times the days past the end date when the car is not returned, the end
date has passed and a car with a nonzero fee is assigned, and is 0 in
every other case — in particular whenever the car has been returned. -/
theorem get_total_balance_formula (b : Booking) (today : Int) :
    (get_total_balance b today =
      b.total_amount + calculate_overdue_fee b.car (some b.end_date) b.car_returned today
        + b.accident_charges - b.paid_amount) ∧
    (calculate_overdue_fee b.car (some b.end_date) b.car_returned today =
      if b.car_returned = false ∧ today > b.end_date then
        (match b.car with
          | some c => if c.fee ≠ 0 then c.fee * (today - b.end_date) else 0
          | none => 0)
      else 0) ∧
    (b.car_returned = true →
      get_total_balance b today = b.total_amount + b.accident_charges - b.paid_amount) := by
  have hfee : calculate_overdue_fee b.car (some b.end_date) b.car_returned today =
      if b.car_returned = false ∧ today > b.end_date then
        (match b.car with
          | some c => if c.fee ≠ 0 then c.fee * (today - b.end_date) else 0
          | none => 0)
      else 0 := by
    unfold calculate_overdue_fee
    cases b.car_returned <;> by_cases ht : today > b.end_date <;> simp [ht]
  refine ⟨?_, hfee, ?_⟩
  · unfold get_total_balance
    rw [hfee]
    cases hr : b.car_returned <;> by_cases ht : today > b.end_date <;> simp [ht]
  · intro hr
    unfold get_total_balance
    simp [hr]

/-- Witness for C3's returned-car conjunct at a concrete booking. -/
theorem get_total_balance_formula_witness :
    get_total_balance { sample_booking with car_returned := true } 100 =
      { sample_booking with car_returned := true }.total_amount
        + { sample_booking with car_returned := true }.accident_charges
        - { sample_booking with car_returned := true }.paid_amount :=
  (get_total_balance_formula { sample_booking with car_returned := true } 100).2.2 rfl

/-- C4: `check_car_availability` returns `True` exactly when no existing
booking for that car — other than the optionally excluded one (the
argument is a database id, hence not 0) and excluding bookings whose
status is `Cancelled` or `Returned` — has `start_date` strictly before the
requested end date and `end_date` strictly after the requested start
date. -/
theorem check_car_availability_iff (bookings : List Booking) (car : Car)
    (s e : Int) (excl : Option Nat) (hE : excl ≠ some 0) :
    check_car_availability bookings car s e excl = true ↔
      ∀ b ∈ bookings, (∀ i, excl = some i → b.id ≠ some i) →
        b.booking_status ≠ "Cancelled" → b.booking_status ≠ "Returned" →
        ¬(car_matches b car = true ∧ b.start_date < e ∧ s < b.end_date) := by
  unfold check_car_availability
  cases excl with
  | none =>
    simp only [truthy_opt_id, Bool.false_eq_true, if_false, List.isEmpty_iff,
      List.filter_eq_nil_iff, List.mem_filter]
    constructor
    · intro h b hb _ hc hr ⟨hm, h1, h2⟩
      exact h b ⟨hb, by simp [hm, h1, h2]⟩ (by simp [hc, hr])
    · intro h b ⟨hb, hov⟩ hst
      simp only [Bool.and_eq_true, decide_eq_true_eq] at hov
      simp only [Bool.not_eq_true', Bool.or_eq_false_iff, beq_eq_false_iff_ne] at hst
      exact h b hb (by simp) hst.1 hst.2 ⟨hov.1.1, hov.1.2, hov.2⟩
  | some i =>
    have hi : (i == 0) = false := by
      simpa using fun h => hE (by rw [h])
    simp only [truthy_opt_id, bne, hi, Bool.not_false, if_true, List.isEmpty_iff,
      List.filter_eq_nil_iff, List.mem_filter]
    constructor
    · intro h b hb hexcl hc hr ⟨hm, h1, h2⟩
      exact h b ⟨⟨hb, by simp [hm, h1, h2]⟩, by simp [hc, hr]⟩
        (by simpa using hexcl i rfl)
    · intro h b ⟨⟨hb, hov⟩, hst⟩ hid
      simp only [Bool.and_eq_true, decide_eq_true_eq] at hov
      simp only [Bool.not_eq_true', Bool.or_eq_false_iff, beq_eq_false_iff_ne] at hst
      exact h b hb (by intro j hj; cases hj; simpa using hid)
        hst.1 hst.2 ⟨hov.1.1, hov.1.2, hov.2⟩

/-- Witness for C4: one active overlapping booking for the same car makes
the check return `False` on both sides of the equivalence. -/
theorem check_car_availability_iff_witness :
    check_car_availability [{ sample_booking with car := some sample_car }]
        sample_car 1 4 none = false :=
  by
    have h := check_car_availability_iff
      [{ sample_booking with car := some sample_car }] sample_car 1 4 none
      (by simp)
    by_contra hne
    have : check_car_availability [{ sample_booking with car := some sample_car }]
        sample_car 1 4 none = true := by
      cases hc : check_car_availability [{ sample_booking with car := some sample_car }]
          sample_car 1 4 none
      · exact absurd hc hne
      · rfl
    exact (h.mp this { sample_booking with car := some sample_car } (by simp)
      (by simp) (by simp [sample_booking]) (by simp [sample_booking]))
      (by refine ⟨by simp [car_matches], by simp [sample_booking], by simp [sample_booking]⟩)

/-- When the availability check fails, some booking for the car overlaps
the range, is neither `Cancelled` nor `Returned`, and differs from the
excluded id whenever that id is truthy. -/
theorem check_false_exists {bookings : List Booking} {c : Car} {s e : Int}
    {excl : Option Nat}
    (h : check_car_availability bookings c s e excl = false) :
    ∃ b ∈ bookings, car_matches b c = true ∧ b.start_date < e ∧ b.end_date > s ∧
      b.booking_status ≠ "Cancelled" ∧ b.booking_status ≠ "Returned" ∧
      (truthy_opt_id excl = true → b.id ≠ excl) := by
  unfold check_car_availability at h
  by_cases ht : truthy_opt_id excl = true
  · simp only [ht, eq_self_iff_true, if_true,
      List.isEmpty_eq_false_iff_exists_mem] at h
    obtain ⟨b, hmem⟩ := h
    simp only [List.mem_filter, Bool.and_eq_true, decide_eq_true_eq,
      Bool.not_eq_true', Bool.or_eq_false_iff, beq_eq_false_iff_ne,
      bne_iff_ne] at hmem
    exact ⟨b, by tauto⟩
  · have htf : truthy_opt_id excl = false := by simpa using ht
    simp only [htf, Bool.false_eq_true, if_false,
      List.isEmpty_eq_false_iff_exists_mem] at h
    obtain ⟨b, hmem⟩ := h
    simp only [List.mem_filter, Bool.and_eq_true, decide_eq_true_eq,
      Bool.not_eq_true', Bool.or_eq_false_iff, beq_eq_false_iff_ne] at hmem
    exact ⟨b, by tauto⟩

/-- A `Cancelled` booking of `sample_car` overlapping days 0-5, stored
with id 2. -/
def cancelled_overlap_booking : Booking :=
  { sample_booking with
    id := some 2
    car := some sample_car
    booking_status := "Cancelled" }

/-- C5 counterexample: with a single overlapping `Cancelled` booking in
the table, the serializer's `validate` rejects the request as
double-booked although `check_car_availability` (excluding the same
booking, here none) returns `True` — the two checks do not agree, because
`validate` does not exclude `Cancelled`/`Returned` bookings. -/
theorem validate_vs_availability_counterexample :
    validate [cancelled_overlap_booking]
        { car := some (some sample_car), start_date := some 2, end_date := some 6,
          car_returned := none, tax := none, discount := none, paid_amount := none }
        none 2
      = .error "Car is already booked for the selected dates." ∧
    check_car_availability [cancelled_overlap_booking] sample_car 2 6 none = true :=
  ⟨by rfl, by rfl⟩

/-- C5 (amended): whenever `check_car_availability` (excluding the
instance's id) returns `False`, the serializer's `validate` rejects the
data as double-booked; the converse fails for overlapping
`Cancelled`/`Returned` bookings.  Stored bookings are assumed to carry
positive database ids. -/
theorem validate_rejects_when_unavailable (bookings : List Booking)
    (data : UpdateData) (inst : Option Booking) (today : Int)
    (c : Car) (s e : Int)
    (hcar : data.car = some (some c))
    (hs : data.start_date = some s)
    (he : data.end_date = some e)
    (hse : ¬ s > e) (htoday : ¬ s < today)
    (hids : ∀ b ∈ bookings, b.id ≠ none ∧ b.id ≠ some 0)
    (hunavail : check_car_availability bookings c s e
        (inst.bind (fun i => i.id)) = false) :
    validate bookings data inst today
      = .error "Car is already booked for the selected dates." := by
  obtain ⟨b, hb, hm, h1, h2, hc, hr, hexcl⟩ := check_false_exists hunavail
  have hne : b.id ≠ inst.bind (fun i => i.id) := by
    cases hx : inst.bind (fun i => i.id) with
    | none => exact (hids b hb).1
    | some k =>
      cases k with
      | zero => exact (hids b hb).2
      | succ n =>
        have hh := hexcl (by rw [hx]; rfl)
        rw [hx] at hh
        exact hh
  have hmem2 : b ∈ (bookings.filter (fun b =>
      car_matches b c && decide (b.start_date < e) && decide (b.end_date > s))).filter
      (fun b => b.id != inst.bind (fun i => i.id)) := by
    refine List.mem_filter.mpr ⟨List.mem_filter.mpr ⟨hb, ?_⟩, ?_⟩
    · simp [hm, h1, h2]
    · simpa [bne_iff_ne] using hne
  unfold validate
  rw [hcar, hs, he]
  simp only [Option.getD_some, Option.orElse, if_neg hse, if_neg htoday]
  rw [if_neg (by rw [List.isEmpty_iff]; exact List.ne_nil_of_mem hmem2)]

/-- An `Active` booking of `sample_car` overlapping days 0-5, stored with
id 2. -/
def active_overlap_booking : Booking :=
  { sample_booking with
    id := some 2
    car := some sample_car }

/-- Witness for the amended C5 at a concrete overlapping active booking. -/
theorem validate_rejects_when_unavailable_witness :
    validate [active_overlap_booking]
        { car := some (some sample_car), start_date := some 2, end_date := some 6,
          car_returned := none, tax := none, discount := none, paid_amount := none }
        none 2
      = .error "Car is already booked for the selected dates." :=
  validate_rejects_when_unavailable [active_overlap_booking]
    { car := some (some sample_car), start_date := some 2, end_date := some 6,
      car_returned := none, tax := none, discount := none, paid_amount := none }
    none 2 sample_car 2 6 rfl rfl rfl (by decide) (by decide)
    (by decide) (by rfl)

/-- C6 (amended): `extend` raises and leaves everything unchanged when the
new end date is not strictly after the current one; when the booking is
stored successfully it carries the new end date, both `extension_charges`
and `total_amount` grow by the fee, and exactly one extension row with the
previous and new end dates is created.  (The final save can still raise —
the availability check runs on the extended range — and the extension row
persists even then.) -/
theorem extend_spec (bookings : List Booking) (b : Booking)
    (new_end_date : Int) (extension_fee : Int) (reason remarks : Option String)
    (y m d : Nat) (u : String) :
    (new_end_date ≤ b.end_date →
      extend bookings b new_end_date extension_fee reason remarks y m d u =
        (.error "New end date must be after current end date.", [])) ∧
    (∀ b', (extend bookings b new_end_date extension_fee reason remarks y m d u).1
        = .ok b' →
      b'.end_date = new_end_date ∧
      b'.extension_charges = b.extension_charges + extension_fee ∧
      b'.total_amount = b.total_amount + extension_fee ∧
      new_end_date > b.end_date ∧
      (extend bookings b new_end_date extension_fee reason remarks y m d u).2 =
        [{ booking := b.id, previous_end_date := b.end_date,
           new_end_date := new_end_date, extension_fee := extension_fee,
           reason := reason, remarks := remarks }]) := by
  constructor
  · intro hle
    unfold extend
    rw [if_pos hle]
  · intro b' h1
    by_cases hle : new_end_date ≤ b.end_date
    · rw [show extend bookings b new_end_date extension_fee reason remarks y m d u =
          (.error "New end date must be after current end date.", []) from by
        unfold extend; rw [if_pos hle]] at h1
      exact absurd h1 (by simp)
    · simp only [extend, if_neg hle] at h1 ⊢
      have hb := save_ok_eq h1
      refine ⟨?_, ?_, ?_, by omega, trivial⟩ <;> rw [hb] <;> split <;> rfl

/-- Witness for the amended C6: extending `sample_booking` (no car, so the
re-save validation passes) from day 5 to day 8 for a fee of 5. -/
theorem extend_spec_witness :
    (extend [sample_booking] sample_booking 8 5 none none 2025 1 1 "u").2 =
      [{ booking := some 1, previous_end_date := 5, new_end_date := 8,
         extension_fee := 5, reason := none, remarks := none }] :=
  ((extend_spec [sample_booking] sample_booking 8 5 none none 2025 1 1 "u").2
    { sample_booking with
      end_date := 8
      extension_charges := 5
      total_amount := 105 } (by rfl)).2.2.2.2

/-- The booking to be extended: `sample_car`, days 0-5, `Active`, id 1. -/
def extension_blocked_booking : Booking :=
  { sample_booking with car := some sample_car }

/-- Another `Active` booking of the same car on days 6-9, stored with
id 2. -/
def blocking_booking : Booking :=
  { sample_booking with
    id := some 2
    booking_id := "BK-20250101-bbbbbbbb"
    car := some sample_car
    start_date := 6
    end_date := 9 }

/-- C6 counterexample: extending to day 7 — strictly after the current end
date 5 — still raises a validation error (the save-time availability check
sees the other booking on days 6-9), and the extension row has already
been created at that point; so `extend` does not raise *exactly* when the
new end date is not strictly after the current one. -/
theorem extend_raise_counterexample :
    (7 : Int) > extension_blocked_booking.end_date ∧
    extend [extension_blocked_booking, blocking_booking]
        extension_blocked_booking 7 5 none none 2025 1 1 "u" =
      (.error "This car is already booked for the selected dates",
       [{ booking := some 1, previous_end_date := 5, new_end_date := 7,
          extension_fee := 5, reason := none, remarks := none }]) :=
  ⟨by decide, by rfl⟩

/-- C7 (amended): a successful `swap_car` assigns the new car, sets
`has_been_swapped`, records the swap date and reason, marks the booking's
*original* car — which is the replaced car only on the first swap —
`Available`/`Active`, and marks the new car `Booked`/`Booked`;
`original_car` is set to the current car on a first swap and left
untouched afterwards, so it always remains the car assigned before the
first swap. -/
theorem swap_car_spec (bookings : List Booking) (b : Booking) (new_car : Car)
    (reason : String) (today : Int) (y m d : Nat) (u : String)
    (b' oc bc : _)
    (h : swap_car bookings b new_car reason today y m d u = .ok (b', oc, bc)) :
    b'.car = some new_car ∧
    b'.has_been_swapped = true ∧
    b'.swap_date = some today ∧
    b'.swap_reason = some reason ∧
    b'.original_car = (if b.has_been_swapped then b.original_car else b.car) ∧
    some oc = (if b.has_been_swapped then b.original_car else b.car).map
        (fun c => { c with availability := "Available", status := "Active" }) ∧
    bc = { new_car with availability := "Booked", status := "Booked" } := by
  cases hsw : b.has_been_swapped with
  | false =>
    simp only [swap_car, hsw, Bool.false_eq_true, if_false] at h ⊢
    split at h
    · exact absurd h (by simp)
    · next b2 heq =>
      split at h
      · exact absurd h (by simp)
      · next oc0 hoc =>
        obtain ⟨hb2, hoc', hbc⟩ : b2 = b' ∧
            ({ oc0 with availability := "Available", status := "Active" } : Car) = oc ∧
            ({ new_car with availability := "Booked", status := "Booked" } : Car) = bc := by
          have hinj := (Except.ok.injEq _ _).mp h
          exact ⟨congrArg Prod.fst hinj, congrArg (fun p => p.2.1) hinj,
            congrArg (fun p => p.2.2) hinj⟩
        subst hb2
        subst hoc'
        subst hbc
        have hb := save_ok_eq heq
        rw [hb]
        refine ⟨?_, ?_, ?_, ?_, ?_, ?_, rfl⟩
        · split <;> rfl
        · split <;> rfl
        · split <;> rfl
        · split <;> rfl
        · split <;> rfl
        · rw [hoc]
          rfl
  | true =>
    simp only [swap_car, hsw, if_true] at h ⊢
    split at h
    · exact absurd h (by simp)
    · next b2 heq =>
      split at h
      · exact absurd h (by simp)
      · next oc0 hoc =>
        obtain ⟨hb2, hoc', hbc⟩ : b2 = b' ∧
            ({ oc0 with availability := "Available", status := "Active" } : Car) = oc ∧
            ({ new_car with availability := "Booked", status := "Booked" } : Car) = bc := by
          have hinj := (Except.ok.injEq _ _).mp h
          exact ⟨congrArg Prod.fst hinj, congrArg (fun p => p.2.1) hinj,
            congrArg (fun p => p.2.2) hinj⟩
        subst hb2
        subst hoc'
        subst hbc
        have hb := save_ok_eq heq
        rw [hb]
        refine ⟨?_, ?_, ?_, ?_, ?_, ?_, rfl⟩
        · split <;> rfl
        · split <;> rfl
        · split <;> rfl
        · split <;> rfl
        · split <;> rfl
        · rw [hoc]
          rfl


/-- The booking before any swap: `sample_car` on days 0-5, id 1. -/
def swap_base_booking : Booking :=
  { sample_booking with car := some sample_car }

/-- The first replacement car. -/
def first_swap_car : Car :=
  { id := 11, fee := 60, availability := "Available", status := "Active" }

/-- The second replacement car. -/
def second_swap_car : Car :=
  { id := 12, fee := 70, availability := "Available", status := "Active" }

/-- The booking after the first swap. -/
def swapped_once_booking : Booking :=
  { sample_booking with
    car := some first_swap_car
    original_car := some sample_car
    has_been_swapped := true
    swap_date := some 3
    swap_reason := some "engine trouble" }

/-- The booking after the second swap: `original_car` still points at
`sample_car`. -/
def swapped_twice_booking : Booking :=
  { swapped_once_booking with
    car := some second_swap_car
    swap_date := some 4
    swap_reason := some "second failure" }

/-- C7 counterexample: after a first swap to `first_swap_car`, a second
swap to `second_swap_car` marks `sample_car` — the original car, already
released by the first swap — `Available`/`Active` instead of the actually
replaced car `first_swap_car` (id 11 ≠ id 10), so "marks the replaced car
Available/Active" fails for the second swap of a sequence;
`original_car` does remain the pre-first-swap car. -/
theorem swap_car_second_swap_counterexample :
    swap_car [swap_base_booking] swap_base_booking first_swap_car
        "engine trouble" 3 2025 1 1 "u"
      = .ok (swapped_once_booking,
             { sample_car with availability := "Available", status := "Active" },
             { first_swap_car with availability := "Booked", status := "Booked" }) ∧
    swap_car [swapped_once_booking] swapped_once_booking second_swap_car
        "second failure" 4 2025 1 2 "u2"
      = .ok (swapped_twice_booking,
             { sample_car with availability := "Available", status := "Active" },
             { second_swap_car with availability := "Booked", status := "Booked" }) ∧
    swapped_once_booking.car = some first_swap_car ∧
    sample_car.id ≠ first_swap_car.id ∧
    swapped_twice_booking.original_car = some sample_car :=
  ⟨by rfl, by rfl, by rfl, by decide, by rfl⟩

/-- Witness for the amended C7 at the first concrete swap. -/
theorem swap_car_spec_witness :
    swapped_once_booking.original_car = some sample_car ∧
    swapped_once_booking.car = some first_swap_car :=
  ⟨(swap_car_spec [swap_base_booking] swap_base_booking first_swap_car
      "engine trouble" 3 2025 1 1 "u" swapped_once_booking
      { sample_car with availability := "Available", status := "Active" }
      { first_swap_car with availability := "Booked", status := "Booked" }
      (by rfl)).2.2.2.2.1,
   (swap_car_spec [swap_base_booking] swap_base_booking first_swap_car
      "engine trouble" 3 2025 1 1 "u" swapped_once_booking
      { sample_car with availability := "Available", status := "Active" }
      { first_swap_car with availability := "Booked", status := "Booked" }
      (by rfl)).1⟩

/-- The `total_due` computed inside `Payment.save` —
`booking.get_total_balance() + total_paid` after `paid_amount` was set to
`total_paid` in memory — is the booking's total amount plus overdue fee
plus accident charges, independently of the paid sum. -/
theorem total_due_eq (b : Booking) (today : Int) (x : Int) :
    get_total_balance { b with paid_amount := x } today + x =
      b.total_amount +
        (if b.car_returned = false ∧ today > b.end_date then
          (match b.car with
            | some c => if c.fee ≠ 0 then c.fee * (today - b.end_date) else 0
            | none => 0)
         else 0) + b.accident_charges := by
  unfold get_total_balance
  cases hr : b.car_returned <;> by_cases ht : today > b.end_date <;> simp [ht]

/-- C2 (amended): when `Payment.save` completes successfully (the
booking's own re-save validation passes), the booking's `paid_amount`
equals the sum of the amounts of all of its successful payments, its
`payment_status` is `Unpaid` exactly when that sum is 0, `Partial` exactly
when the sum is *nonzero* (the code does not require it positive) and
strictly below the total due (total amount plus overdue fee plus accident
charges), and `Paid` otherwise; `payment_date` is set from the payment
only when it was previously unset and the payment is successful. -/
theorem payment_save_spec (bookings : List Booking) (b : Booking)
    (payments : List Payment) (p : Payment) (today : Int)
    (y m d : Nat) (u : String) (b' : Booking)
    (h : payment_save bookings b payments p today y m d u = .ok b') :
    b'.paid_amount = get_total_paid (payments ++ [p]) ∧
    (b'.payment_status = "Unpaid" ↔ get_total_paid (payments ++ [p]) = 0) ∧
    (b'.payment_status = "Partial" ↔
      (get_total_paid (payments ++ [p]) ≠ 0 ∧
       get_total_paid (payments ++ [p]) <
         b.total_amount +
           (if b.car_returned = false ∧ today > b.end_date then
             (match b.car with
               | some c => if c.fee ≠ 0 then c.fee * (today - b.end_date) else 0
               | none => 0)
            else 0) + b.accident_charges)) ∧
    (b'.payment_status = "Paid" ↔
      (get_total_paid (payments ++ [p]) ≠ 0 ∧
       ¬ get_total_paid (payments ++ [p]) <
         b.total_amount +
           (if b.car_returned = false ∧ today > b.end_date then
             (match b.car with
               | some c => if c.fee ≠ 0 then c.fee * (today - b.end_date) else 0
               | none => 0)
            else 0) + b.accident_charges)) ∧
    b'.payment_date = (if b.payment_date = none ∧ p.is_successful = true then
        some p.payment_date else b.payment_date) := by
  simp only [payment_save] at h
  rw [← total_due_eq b today (get_total_paid (payments ++ [p]))]
  have hb := save_ok_eq h
  rw [hb]
  clear h hb
  set bal := get_total_balance
    { b with paid_amount := get_total_paid (payments ++ [p]) } today with hbal
  by_cases h0 : get_total_paid (payments ++ [p]) = 0 <;>
    by_cases h1 : get_total_paid (payments ++ [p]) <
      bal + get_total_paid (payments ++ [p]) <;>
    by_cases h2 : b.payment_date = none <;>
    by_cases h3 : p.is_successful = true <;>
    by_cases h4 : b.booking_id = "" <;>
    (try simp only [h0, h1, h2, h3, h4, Option.isNone_none, Option.isNone_some,
      Bool.and_true, Bool.and_false, Bool.true_and, Bool.false_and]) <;>
    simp [h0, h1, h2, h3, h4]

/-- A failed-looking but successful payment of −5 (the code nowhere
requires amounts to be positive). -/
def negative_payment : Payment :=
  { booking := some 1, amount := -5, payment_date := 1, is_successful := true }

/-- C2 counterexample: with a single successful payment of −5 on a booking
whose total due is 100, the code stores `payment_status = "Partial"`
although the sum of successful payments is not positive — the claim's
"Partial exactly when the sum is positive and below the total due" is
false; the nonzero negative sum also takes the `Partial` branch. -/
theorem payment_status_negative_counterexample :
    (payment_save [sample_booking] sample_booking [] negative_payment 1
        2025 1 1 "u").map (fun bk => bk.payment_status) = .ok "Partial" ∧
    get_total_paid [negative_payment] = -5 ∧
    ¬ (0 < get_total_paid [negative_payment]) :=
  ⟨by rfl, by rfl, by decide⟩

/-- A successful partial payment of 40. -/
def partial_payment : Payment :=
  { booking := some 1, amount := 40, payment_date := 1, is_successful := true }

/-- Witness for the amended C2: paying 40 on `sample_booking` (total 100)
stores `paid_amount = 40`, status `Partial`, and the payment's date. -/
theorem payment_save_spec_witness :
    ({ sample_booking with
        paid_amount := 40
        payment_status := "Partial"
        payment_date := some 1 } : Booking).paid_amount
      = get_total_paid ([] ++ [partial_payment]) :=
  (payment_save_spec [sample_booking] sample_booking [] partial_payment 1
    2025 1 1 "u"
    { sample_booking with
      paid_amount := 40
      payment_status := "Partial"
      payment_date := some 1 }
    (by rfl)).1

end CarRental
